import Mathlib

/-!
Verification development for the node-smb2 SMB2/SMB3 client.

The definitions below are a shallow embedding of the client source:
bytes are `Nat` values kept below 256 by construction, buffers are
`List Nat`, stateful code is explicit state passing, and fallible code
returns `Except` or `Option`.  Functions keep the names of the source
functions they embed.  A few enumerations and record shapes whose
defining files are absent from the snapshot (only their callers, tests
or docs remain) are modelled from the specification; each such
definition carries a doc comment starting with "Modelled from the spec".
-/

set_option maxRecDepth 100000

namespace Smb

/-- Little-endian 16-bit encoding of a number, as two bytes. -/
def u16le (n : Nat) : List Nat := [n % 256, n / 256 % 256]

/-- Big-endian 16-bit encoding of a number, as two bytes. -/
def u16be (n : Nat) : List Nat := [n / 256 % 256, n % 256]

/-- Little-endian 32-bit encoding of a number, as four bytes. -/
def u32le (n : Nat) : List Nat :=
  [n % 256, n / 256 % 256, n / 2 ^ 16 % 256, n / 2 ^ 24 % 256]

/-- Big-endian 32-bit encoding of a number, as four bytes. -/
def u32be (n : Nat) : List Nat :=
  [n / 2 ^ 24 % 256, n / 2 ^ 16 % 256, n / 256 % 256, n % 256]

/-- Little-endian 64-bit encoding of a number, as eight bytes. -/
def u64le (n : Nat) : List Nat :=
  (List.range 8).map fun i => n / 2 ^ (8 * i) % 256

/-- Read a little-endian 16-bit value at an offset of a byte list. -/
def readU16le (l : List Nat) (off : Nat) : Nat :=
  l.getD off 0 + 256 * l.getD (off + 1) 0

/-- Read a little-endian 32-bit value at an offset of a byte list. -/
def readU32le (l : List Nat) (off : Nat) : Nat :=
  l.getD off 0 + 256 * l.getD (off + 1) 0 + 2 ^ 16 * l.getD (off + 2) 0 +
    2 ^ 24 * l.getD (off + 3) 0

/-- Bytes of a string under single-byte ascii encoding (JS Buffer
ascii encoding keeps the low 8 bits of each code unit). -/
def asciiBytes (s : String) : List Nat := s.data.map fun c => c.toNat % 256

/-- Bytes of a string under UTF-16LE (JS ucs2) encoding; all strings
handled by the client are in the basic multilingual plane. -/
def utf16le (s : String) : List Nat :=
  (s.data.map fun c => [c.toNat % 256, c.toNat / 256 % 256]).flatten

/-- Uppercase one character in the ascii range, as JS toUpperCase does
on the ascii input the client handles. -/
def upperChar (c : Char) : Char :=
  if 97 ≤ c.toNat ∧ c.toNat ≤ 122 then Char.ofNat (c.toNat - 32) else c

/-- Uppercase a string character by character, as JS toUpperCase does
on ascii input. -/
def upperStr (s : String) : String := ⟨s.data.map upperChar⟩

/-- Pointwise xor of two byte lists of equal length. -/
def xorBytes (a b : List Nat) : List Nat := List.zipWith Nat.xor a b

/-- Pointwise xor where a missing byte counts as zero and the result
has the length of the longer list, as the source helper xor does. -/
def xorBytesPad (a b : List Nat) : List Nat :=
  (List.range (max a.length b.length)).map fun i => Nat.xor (a.getD i 0) (b.getD i 0)

/-- Split a byte list into 16-byte chunks (the last chunk may be short). -/
def chunks16Go : Nat → List Nat → List (List Nat)
  | _, [] => []
  | 0, _ => []
  | fuel + 1, l => l.take 16 :: chunks16Go fuel (l.drop 16)

/-- Split a byte list into 16-byte chunks (the last chunk may be short). -/
def chunks16 (l : List Nat) : List (List Nat) := chunks16Go l.length l

/-- Zero-pad a byte list on the right up to a multiple of 16 bytes. -/
def pad16z (l : List Nat) : List Nat :=
  l ++ List.replicate ((16 - l.length % 16) % 16) 0

/- ### AES-128 block cipher (FIPS 197), used by the SMB3 crypto module
for AES-CMAC signatures and AES-CCM transform encryption. -/

/-- The AES forward substitution box. -/
def sboxTable : List Nat :=
  [0x63, 0x7c, 0x77, 0x7b, 0xf2, 0x6b, 0x6f, 0xc5, 0x30, 0x01, 0x67, 0x2b, 0xfe, 0xd7, 0xab, 0x76,
   0xca, 0x82, 0xc9, 0x7d, 0xfa, 0x59, 0x47, 0xf0, 0xad, 0xd4, 0xa2, 0xaf, 0x9c, 0xa4, 0x72, 0xc0,
   0xb7, 0xfd, 0x93, 0x26, 0x36, 0x3f, 0xf7, 0xcc, 0x34, 0xa5, 0xe5, 0xf1, 0x71, 0xd8, 0x31, 0x15,
   0x04, 0xc7, 0x23, 0xc3, 0x18, 0x96, 0x05, 0x9a, 0x07, 0x12, 0x80, 0xe2, 0xeb, 0x27, 0xb2, 0x75,
   0x09, 0x83, 0x2c, 0x1a, 0x1b, 0x6e, 0x5a, 0xa0, 0x52, 0x3b, 0xd6, 0xb3, 0x29, 0xe3, 0x2f, 0x84,
   0x53, 0xd1, 0x00, 0xed, 0x20, 0xfc, 0xb1, 0x5b, 0x6a, 0xcb, 0xbe, 0x39, 0x4a, 0x4c, 0x58, 0xcf,
   0xd0, 0xef, 0xaa, 0xfb, 0x43, 0x4d, 0x33, 0x85, 0x45, 0xf9, 0x02, 0x7f, 0x50, 0x3c, 0x9f, 0xa8,
   0x51, 0xa3, 0x40, 0x8f, 0x92, 0x9d, 0x38, 0xf5, 0xbc, 0xb6, 0xda, 0x21, 0x10, 0xff, 0xf3, 0xd2,
   0xcd, 0x0c, 0x13, 0xec, 0x5f, 0x97, 0x44, 0x17, 0xc4, 0xa7, 0x7e, 0x3d, 0x64, 0x5d, 0x19, 0x73,
   0x60, 0x81, 0x4f, 0xdc, 0x22, 0x2a, 0x90, 0x88, 0x46, 0xee, 0xb8, 0x14, 0xde, 0x5e, 0x0b, 0xdb,
   0xe0, 0x32, 0x3a, 0x0a, 0x49, 0x06, 0x24, 0x5c, 0xc2, 0xd3, 0xac, 0x62, 0x91, 0x95, 0xe4, 0x79,
   0xe7, 0xc8, 0x37, 0x6d, 0x8d, 0xd5, 0x4e, 0xa9, 0x6c, 0x56, 0xf4, 0xea, 0x65, 0x7a, 0xae, 0x08,
   0xba, 0x78, 0x25, 0x2e, 0x1c, 0xa6, 0xb4, 0xc6, 0xe8, 0xdd, 0x74, 0x1f, 0x4b, 0xbd, 0x8b, 0x8a,
   0x70, 0x3e, 0xb5, 0x66, 0x48, 0x03, 0xf6, 0x0e, 0x61, 0x35, 0x57, 0xb9, 0x86, 0xc1, 0x1d, 0x9e,
   0xe1, 0xf8, 0x98, 0x11, 0x69, 0xd9, 0x8e, 0x94, 0x9b, 0x1e, 0x87, 0xe9, 0xce, 0x55, 0x28, 0xdf,
   0x8c, 0xa1, 0x89, 0x0d, 0xbf, 0xe6, 0x42, 0x68, 0x41, 0x99, 0x2d, 0x0f, 0xb0, 0x54, 0xbb, 0x16]

/-- S-box lookup. -/
def sbox (b : Nat) : Nat := sboxTable.getD b 0

/-- Multiplication by x in GF(2^8) modulo the AES polynomial. -/
def xtime (b : Nat) : Nat :=
  if b < 128 then 2 * b else Nat.xor (2 * b % 256) 0x1b

/-- Multiplication by 3 in GF(2^8). -/
def gmul3 (b : Nat) : Nat := Nat.xor (xtime b) b

/-- AES round constants for the 128-bit key schedule. -/
def rconTable : List Nat := [0x01, 0x02, 0x04, 0x08, 0x10, 0x20, 0x40, 0x80, 0x1b, 0x36]

/-- One derived word of the AES key schedule: rotate, substitute and
xor the round constant (applied every fourth word). -/
def subRotWord (w : List Nat) (r : Nat) : List Nat :=
  match w with
  | [a, b, c, d] => [Nat.xor (sbox b) (rconTable.getD r 0), sbox c, sbox d, sbox a]
  | _ => w

/-- The 44 four-byte words of the expanded AES-128 key. -/
def expandKeyWords (key : List Nat) : List (List Nat) :=
  (List.range 44).foldl
    (fun ws i =>
      if i < 4 then ws ++ [(key.drop (4 * i)).take 4]
      else
        let prev := ws.getD (i - 1) []
        let back := ws.getD (i - 4) []
        let t := if i % 4 = 0 then subRotWord prev (i / 4 - 1) else prev
        ws ++ [xorBytes back t])
    []

/-- Round key r (16 bytes) of the expanded key. -/
def roundKey (ws : List (List Nat)) (r : Nat) : List Nat :=
  ((ws.drop (4 * r)).take 4).flatten

/-- AES SubBytes on a 16-byte state. -/
def subBytes (st : List Nat) : List Nat := st.map sbox

/-- AES ShiftRows on a 16-byte state laid out column by column. -/
def shiftRows (st : List Nat) : List Nat :=
  (List.range 16).map fun i =>
    let c := i / 4
    let r := i % 4
    st.getD (4 * ((c + r) % 4) + r) 0

/-- AES MixColumns on one 4-byte column. -/
def mixColumn (col : List Nat) : List Nat :=
  match col with
  | [a0, a1, a2, a3] =>
      [Nat.xor (Nat.xor (xtime a0) (gmul3 a1)) (Nat.xor a2 a3),
       Nat.xor (Nat.xor a0 (xtime a1)) (Nat.xor (gmul3 a2) a3),
       Nat.xor (Nat.xor a0 a1) (Nat.xor (xtime a2) (gmul3 a3)),
       Nat.xor (Nat.xor (gmul3 a0) a1) (Nat.xor a2 (xtime a3))]
  | _ => col

/-- AES MixColumns on a 16-byte state. -/
def mixColumns (st : List Nat) : List Nat :=
  ((List.range 4).map fun c => mixColumn ((st.drop (4 * c)).take 4)).flatten

/-- AES-128 encryption of one 16-byte block. -/
def aesEncryptBlock (key block : List Nat) : List Nat :=
  let ws := expandKeyWords key
  let st0 := xorBytes block (roundKey ws 0)
  let mid := (List.range 9).foldl
    (fun st r => xorBytes (mixColumns (shiftRows (subBytes st))) (roundKey ws (r + 1)))
    st0
  xorBytes (shiftRows (subBytes mid)) (roundKey ws 10)


/- ### AES-CMAC (RFC 4493), embedding aesCmac of the smb3 crypto module. -/

/-- Big-endian one-bit left shift over a byte list with the Rb constant
xored into the last byte when the leading bit was set, embedding the
source helper leftShift. -/
def cmacLeftShift (l : List Nat) : List Nat :=
  let shifted := (l.zip (l.drop 1 ++ [0])).map fun p =>
    (2 * p.1 % 256) + (if 128 ≤ p.2 then 1 else 0)
  if 128 ≤ l.getD 0 0 then
    shifted.take (shifted.length - 1) ++ [Nat.xor (shifted.getD (shifted.length - 1) 0) 0x87]
  else shifted

/-- CBC-MAC pass over complete 16-byte blocks with a given key. -/
def cbcMacBlocks (key : List Nat) (x : List Nat) : List (List Nat) → List Nat
  | [] => x
  | b :: bs => cbcMacBlocks key (aesEncryptBlock key (xorBytes x b)) bs

/-- AES-CMAC of a message, embedding aesCmac of the smb3 crypto module:
subkeys from the encryption of the zero block, last block xored with K1
when complete and with K2 after 0x80 padding otherwise. -/
def aesCmac (key data : List Nat) : List Nat :=
  let zeroBlock := List.replicate 16 0
  let lsub := aesEncryptBlock key zeroBlock
  let k1 := cmacLeftShift lsub
  let k2 := cmacLeftShift k1
  let n := if data.length = 0 then 1 else (data.length + 15) / 16
  let lastComplete := data.length ≠ 0 ∧ data.length % 16 = 0
  let rest := data.drop ((n - 1) * 16)
  let mLast :=
    if lastComplete then xorBytesPad rest k1
    else xorBytesPad (rest ++ [0x80] ++ List.replicate (16 - rest.length - 1) 0) k2
  let x := cbcMacBlocks key zeroBlock ((data.take ((n - 1) * 16)) |> chunks16)
  aesEncryptBlock key (xorBytes x mLast)



/- ### AES-128-CCM with an 11-byte nonce and 16-byte tag (RFC 3610),
the mode selected by createCipheriv aes-128-ccm in the crypto module. -/

/-- Counter block i for CCM with an 11-byte nonce (L = 4, flags 0x03). -/
def ccmCtrBlock (nonce : List Nat) (i : Nat) : List Nat :=
  [0x03] ++ nonce ++ u32be i

/-- First CBC-MAC block B0 for CCM: flags (Adata set when aad is
nonempty, t = 16, L = 4), the nonce, and the message length. -/
def ccmB0 (nonce : List Nat) (msgLen : Nat) (hasAad : Bool) : List Nat :=
  [(if hasAad then 0x40 else 0) + 0x38 + 0x03] ++ nonce ++ u32be msgLen

/-- Encoded and padded additional authenticated data blocks for CCM
(lengths below 0xff00 use a two-byte prefix). -/
def ccmAadBlocks (aad : List Nat) : List Nat :=
  if aad.length = 0 then [] else pad16z (u16be aad.length ++ aad)

/-- The 16-byte CCM authentication tag of a message. -/
def ccmTag (key nonce aad msg : List Nat) : List Nat :=
  let mac := cbcMacBlocks key (List.replicate 16 0)
    (chunks16 (ccmB0 nonce msg.length (aad.length ≠ 0) ++ ccmAadBlocks aad ++ pad16z msg))
  xorBytes mac (aesEncryptBlock key (ccmCtrBlock nonce 0))

/-- CCM counter-mode keystream of a given length (blocks 1, 2, ...). -/
def ccmKeystream (key nonce : List Nat) (len : Nat) : List Nat :=
  (((List.range ((len + 15) / 16)).map fun i =>
    aesEncryptBlock key (ccmCtrBlock nonce (i + 1))).flatten).take len

/-- CCM encryption: ciphertext and tag. -/
def ccmEncrypt (key nonce aad msg : List Nat) : List Nat × List Nat :=
  (xorBytes msg (ccmKeystream key nonce msg.length), ccmTag key nonce aad msg)

/-- CCM decryption with tag verification: the plaintext when the tag of
the recovered plaintext matches, nothing otherwise. -/
def ccmDecrypt (key nonce aad ct tag : List Nat) : Option (List Nat) :=
  let pt := xorBytes ct (ccmKeystream key nonce ct.length)
  if ccmTag key nonce aad pt = tag then some pt else none

/-- Failure modes of the node crypto cipher calls made by the smb3
crypto module. -/
inductive CryptoError where
  | invalidKeyLength
  | invalidNonceLength
  | invalidTagLength
  | unableToAuthenticate
  deriving DecidableEq, Repr

/-- Embedding of encryptAES128CCM of the smb3 crypto module: AES-128-CCM
with a 16-byte tag, returning ciphertext with the tag appended. -/
def encryptAES128CCM (key nonce plaintext aad : List Nat) :
    Except CryptoError (List Nat) :=
  if key.length ≠ 16 then .error .invalidKeyLength
  else if nonce.length < 7 ∨ 13 < nonce.length then .error .invalidNonceLength
  else
    let r := ccmEncrypt key nonce aad plaintext
    .ok (r.1 ++ r.2)

/-- Embedding of decryptAES128CCM of the smb3 crypto module: the last 16
bytes of the ciphertext argument are taken as the tag, the rest is
decrypted and verified. -/
def decryptAES128CCM (key nonce ciphertext aad : List Nat) :
    Except CryptoError (List Nat) :=
  let encrypted := ciphertext.take (ciphertext.length - 16)
  let tag := ciphertext.drop (ciphertext.length - 16)
  if key.length ≠ 16 then .error .invalidKeyLength
  else if nonce.length < 7 ∨ 13 < nonce.length then .error .invalidNonceLength
  else if tag.length ≠ 16 then .error .invalidTagLength
  else
    match ccmDecrypt key nonce aad encrypted tag with
    | some pt => .ok pt
    | none => .error .unableToAuthenticate

/-- Embedding of calculateSignature of the smb3 crypto module: AES-CMAC
with the signing key. -/
def calculateSignature (signingKey data : List Nat) : List Nat :=
  aesCmac signingKey data

/- ### MD4 and MD5 digests and HMAC-MD5, used by the NTLM module
(createNtHash uses MD4, the v2 responses use HMAC-MD5). -/

/-- Addition modulo 2^32. -/
def add32 (a b : Nat) : Nat := (a + b) % 2 ^ 32

/-- Left rotation of a 32-bit value. -/
def rotl32 (x n : Nat) : Nat :=
  (x * 2 ^ n % 2 ^ 32) + x / 2 ^ (32 - n)

/-- 32-bit complement. -/
def not32 (x : Nat) : Nat := 2 ^ 32 - 1 - x

/-- Merkle-Damgard padding shared by MD4 and MD5: append 0x80, zero
bytes to 56 mod 64, then the bit length as 64-bit little-endian. -/
def mdPad (msg : List Nat) : List Nat :=
  msg ++ [0x80] ++ List.replicate ((119 - msg.length % 64) % 64) 0 ++
    u64le (8 * msg.length)

/-- The sixteen little-endian 32-bit words of one 64-byte chunk. -/
def mdWords (chunk : List Nat) : List Nat :=
  (List.range 16).map fun i => readU32le chunk (4 * i)

/-- Split a padded message into 64-byte chunks. -/
def chunks64Go : Nat → List Nat → List (List Nat)
  | _, [] => []
  | 0, _ => []
  | fuel + 1, l => l.take 64 :: chunks64Go fuel (l.drop 64)

/-- Split a padded message into 64-byte chunks. -/
def chunks64 (l : List Nat) : List (List Nat) := chunks64Go l.length l

/-- MD5 per-round sine constants. -/
def md5K : List Nat :=
  [0xd76aa478, 0xe8c7b756, 0x242070db, 0xc1bdceee, 0xf57c0faf, 0x4787c62a, 0xa8304613, 0xfd469501,
   0x698098d8, 0x8b44f7af, 0xffff5bb1, 0x895cd7be, 0x6b901122, 0xfd987193, 0xa679438e, 0x49b40821,
   0xf61e2562, 0xc040b340, 0x265e5a51, 0xe9b6c7aa, 0xd62f105d, 0x02441453, 0xd8a1e681, 0xe7d3fbc8,
   0x21e1cde6, 0xc33707d6, 0xf4d50d87, 0x455a14ed, 0xa9e3e905, 0xfcefa3f8, 0x676f02d9, 0x8d2a4c8a,
   0xfffa3942, 0x8771f681, 0x6d9d6122, 0xfde5380c, 0xa4beea44, 0x4bdecfa9, 0xf6bb4b60, 0xbebfbc70,
   0x289b7ec6, 0xeaa127fa, 0xd4ef3085, 0x04881d05, 0xd9d4d039, 0xe6db99e5, 0x1fa27cf8, 0xc4ac5665,
   0xf4292244, 0x432aff97, 0xab9423a7, 0xfc93a039, 0x655b59c3, 0x8f0ccc92, 0xffeff47d, 0x85845dd1,
   0x6fa87e4f, 0xfe2ce6e0, 0xa3014314, 0x4e0811a1, 0xf7537e82, 0xbd3af235, 0x2ad7d2bb, 0xeb86d391]

/-- MD5 per-round rotation amounts. -/
def md5S : List Nat :=
  [7, 12, 17, 22, 7, 12, 17, 22, 7, 12, 17, 22, 7, 12, 17, 22,
   5, 9, 14, 20, 5, 9, 14, 20, 5, 9, 14, 20, 5, 9, 14, 20,
   4, 11, 16, 23, 4, 11, 16, 23, 4, 11, 16, 23, 4, 11, 16, 23,
   6, 10, 15, 21, 6, 10, 15, 21, 6, 10, 15, 21, 6, 10, 15, 21]

/-- One MD5 compression step. -/
def md5Step (x : List Nat) (st : Nat × Nat × Nat × Nat) (i : Nat) :
    Nat × Nat × Nat × Nat :=
  let a := st.1; let b := st.2.1; let c := st.2.2.1; let d := st.2.2.2
  let f :=
    if i < 16 then Nat.lor (Nat.land b c) (Nat.land (not32 b) d)
    else if i < 32 then Nat.lor (Nat.land d b) (Nat.land (not32 d) c)
    else if i < 48 then Nat.xor b (Nat.xor c d)
    else Nat.xor c (Nat.lor b (not32 d))
  let g :=
    if i < 16 then i
    else if i < 32 then (5 * i + 1) % 16
    else if i < 48 then (3 * i + 5) % 16
    else 7 * i % 16
  let tmp := add32 (add32 a f) (add32 (md5K.getD i 0) (x.getD g 0))
  (d, add32 b (rotl32 tmp (md5S.getD i 0)), b, c)

/-- MD5 compression of one 64-byte chunk. -/
def md5Chunk (st : Nat × Nat × Nat × Nat) (chunk : List Nat) :
    Nat × Nat × Nat × Nat :=
  let x := mdWords chunk
  let r := (List.range 64).foldl (md5Step x) st
  (add32 st.1 r.1, add32 st.2.1 r.2.1, add32 st.2.2.1 r.2.2.1, add32 st.2.2.2 r.2.2.2)

/-- MD5 digest (16 bytes) of a byte list. -/
def md5 (msg : List Nat) : List Nat :=
  let st := (chunks64 (mdPad msg)).foldl md5Chunk
    (0x67452301, 0xefcdab89, 0x98badcfe, 0x10325476)
  u32le st.1 ++ u32le st.2.1 ++ u32le st.2.2.1 ++ u32le st.2.2.2


/-- MD4 round-1 step function F. -/
def md4F (b c d : Nat) : Nat := Nat.lor (Nat.land b c) (Nat.land (not32 b) d)

/-- MD4 round-2 step function G (majority). -/
def md4G (b c d : Nat) : Nat :=
  Nat.lor (Nat.lor (Nat.land b c) (Nat.land b d)) (Nat.land c d)

/-- MD4 round-3 step function H (parity). -/
def md4H (b c d : Nat) : Nat := Nat.xor b (Nat.xor c d)

/-- Word order of MD4 round 3. -/
def md4Round3Order : List Nat :=
  [0, 8, 4, 12, 2, 10, 6, 14, 1, 9, 5, 13, 3, 11, 7, 15]

/-- One MD4 compression step (the round is i / 16). -/
def md4Step (x : List Nat) (st : Nat × Nat × Nat × Nat) (i : Nat) :
    Nat × Nat × Nat × Nat :=
  let a := st.1; let b := st.2.1; let c := st.2.2.1; let d := st.2.2.2
  let f :=
    if i < 16 then md4F b c d
    else if i < 32 then md4G b c d
    else md4H b c d
  let k :=
    if i < 16 then i
    else if i < 32 then (i % 4) * 4 + (i - 16) / 4
    else md4Round3Order.getD (i - 32) 0
  let kc := if i < 16 then 0 else if i < 32 then 0x5a827999 else 0x6ed9eba1
  let s :=
    if i < 16 then [3, 7, 11, 19].getD (i % 4) 0
    else if i < 32 then [3, 5, 9, 13].getD (i % 4) 0
    else [3, 9, 11, 15].getD (i % 4) 0
  let tmp := add32 (add32 a f) (add32 (x.getD k 0) kc)
  (d, rotl32 tmp s, b, c)

/-- MD4 compression of one 64-byte chunk. -/
def md4Chunk (st : Nat × Nat × Nat × Nat) (chunk : List Nat) :
    Nat × Nat × Nat × Nat :=
  let x := mdWords chunk
  let r := (List.range 48).foldl (md4Step x) st
  (add32 st.1 r.1, add32 st.2.1 r.2.1, add32 st.2.2.1 r.2.2.1, add32 st.2.2.2 r.2.2.2)

/-- MD4 digest (16 bytes) of a byte list. -/
def md4 (msg : List Nat) : List Nat :=
  let st := (chunks64 (mdPad msg)).foldl md4Chunk
    (0x67452301, 0xefcdab89, 0x98badcfe, 0x10325476)
  u32le st.1 ++ u32le st.2.1 ++ u32le st.2.2.1 ++ u32le st.2.2.2


/-- HMAC-MD5, embedding createHmac md5 of node crypto: keys longer than
the 64-byte block are hashed first, then the usual ipad/opad scheme. -/
def hmacMd5 (key msg : List Nat) : List Nat :=
  let k0 := if 64 < key.length then md5 key else key
  let kp := k0 ++ List.replicate (64 - k0.length) 0
  let ipad := kp.map fun b => Nat.xor b 0x36
  let opad := kp.map fun b => Nat.xor b 0x5c
  md5 (opad ++ md5 (ipad ++ msg))


/- ### NTLM message codec, embedding the ntlm util module. -/

/-- Modelled from the spec: the NTLMSSP negotiate flag values named in
section 4.3 (the NegotiateFlag enumeration file is absent from the
snapshot), with the standard MS-NLMP bit assignments. -/
def NegotiateFlag.UnicodeEncoding : Nat := 0x00000001

/-- Modelled from the spec: NTLM session security negotiate flag. -/
def NegotiateFlag.NTLMSessionSecurity : Nat := 0x00000200

/-- Modelled from the spec: always-sign negotiate flag. -/
def NegotiateFlag.AlwaysSign : Nat := 0x00008000

/-- Modelled from the spec: extended session security negotiate flag. -/
def NegotiateFlag.ExtendedSessionSecurity : Nat := 0x00080000

/-- Modelled from the spec: target-info negotiate flag. -/
def NegotiateFlag.TargetInfo : Nat := 0x00800000

/-- Modelled from the spec: version negotiate flag. -/
def NegotiateFlag.Version : Nat := 0x02000000

/-- The forceNtlmVersion option: force v1, force v2, or auto-detect. -/
inductive NtlmForce where
  | v1
  | v2
  | auto
  deriving DecidableEq, Repr

/-- Embedding of createTargetInfo: an AV-pair list with the NetBIOS
computer name, the NetBIOS domain name, and the EOL terminator, all
strings in UTF-16LE. -/
def createTargetInfo (hostname domain : String) : List Nat :=
  let hb := utf16le hostname
  let db := utf16le domain
  u16le 0x0001 ++ u16le hb.length ++ hb ++
    u16le 0x0002 ++ u16le db.length ++ db ++
    u16le 0x0000 ++ u16le 0

/-- Embedding of encodeNegotiationMessage: the NTLM Type 1 message.
Both name arguments are uppercased; the v2 flag set is added when the
caller forces v2 or when nothing is forced and the NODE_SMB2_DEFAULT_NTLM
environment variable (here the envDefaultNtlmV1 parameter) is not v1.
The workstation field holds the first name argument, which the session
passes as client.host, and the domain field follows it. -/
def encodeNegotiationMessage (h d : String) (force : NtlmForce)
    (envDefaultNtlmV1 : Bool) : List Nat :=
  let hostname := upperStr h
  let domain := upperStr d
  let hb := asciiBytes hostname
  let db := asciiBytes domain
  let baseFlags := NegotiateFlag.UnicodeEncoding +
    NegotiateFlag.NTLMSessionSecurity + NegotiateFlag.AlwaysSign
  let negotiateFlags :=
    if force = .v2 ∨ (force = .auto ∧ ¬envDefaultNtlmV1) then
      baseFlags + NegotiateFlag.ExtendedSessionSecurity +
        NegotiateFlag.TargetInfo + NegotiateFlag.Version
    else baseFlags
  let domainOffset := 0x20 + hb.length
  asciiBytes "NTLMSSP" ++ [0] ++
    u32le 1 ++
    u32le negotiateFlags ++
    u16le db.length ++ u16le db.length ++ u32le domainOffset ++
    u16le hb.length ++ u16le hb.length ++ u32le 0x20 ++
    hb ++ db

/-- Errors raised by the NTLM decoders. -/
inductive NtlmError where
  | headerNotFound
  | typeIsNotTwo
  deriving DecidableEq, Repr

/-- Embedding of decodeChallengeMessage: validates the NTLMSSP signature
and the message type, then returns only the 8-byte server challenge at
offset 24; the target-info block of the challenge is never read. -/
def decodeChallengeMessage (buffer : List Nat) : Except NtlmError (List Nat) :=
  if buffer.take 7 ≠ asciiBytes "NTLMSSP" ∨ buffer.getD 7 0 ≠ 0 then
    .error .headerNotFound
  else if readU32le buffer 8 ≠ 2 then .error .typeIsNotTwo
  else .ok ((buffer.drop 24).take 8)

/-- Embedding of createNtHash: MD4 of the UTF-16LE password. -/
def createNtHash (password : String) : List Nat := md4 (utf16le password)

/-- Embedding of createNtlmV2Hash: HMAC-MD5 keyed by the NT hash over
the UTF-16LE concatenation of the uppercased username and the uppercased
domain. -/
def createNtlmV2Hash (username domain : String) (ntHash : List Nat) : List Nat :=
  hmacMd5 ntHash (utf16le (upperStr username ++ upperStr domain))

/-- The identity bytes that createNtlmV2Hash feeds to HMAC-MD5. -/
def ntlmV2HashIdentity (username domain : String) : List Nat :=
  utf16le (upperStr username ++ upperStr domain)

/-- Embedding of createNtlmV2Response: the temp blob is the two version
bytes, six reserved zero bytes, the timestamp, the client challenge,
four reserved zero bytes and the target info; the result is HMAC-MD5
over the server challenge followed by temp, with temp appended. -/
def createNtlmV2Response (ntlmv2Hash serverChallenge clientChallenge
    timestamp targetInfo : List Nat) : List Nat :=
  let temp := [0x01, 0x01] ++ List.replicate 6 0 ++ timestamp ++
    clientChallenge ++ List.replicate 4 0 ++ targetInfo
  hmacMd5 ntlmv2Hash (serverChallenge ++ temp) ++ temp

/-- The temp blob built by createNtlmV2Response. -/
def ntlmV2Temp (clientChallenge timestamp targetInfo : List Nat) : List Nat :=
  [0x01, 0x01] ++ List.replicate 6 0 ++ timestamp ++ clientChallenge ++
    List.replicate 4 0 ++ targetInfo

/-- Embedding of createLMv2Response: HMAC-MD5 over the server challenge
followed by the client challenge, with the client challenge appended. -/
def createLMv2Response (ntlmv2Hash serverChallenge clientChallenge : List Nat) :
    List Nat :=
  hmacMd5 ntlmv2Hash (serverChallenge ++ clientChallenge) ++ clientChallenge

/-- Embedding of the NTLMv2 branch of encodeAuthenticationMessage (the
branch taken when useV1 is false): builds the Type 3 message from the
uppercased second name argument (passed by the session as client.host)
as workstation, the uppercased domain, the NT and LM v2 responses and
the locally built target info.  The random client challenge and the
FILETIME timestamp that the source draws from crypto.randomBytes and the
clock are lifted to parameters. -/
def encodeAuthenticationMessageV2 (username h d : String)
    (serverChallenge : List Nat) (password : String) (negotiateFlags : Nat)
    (clientChallenge timestamp : List Nat) : List Nat :=
  let hostname := upperStr h
  let domain := upperStr d
  let ntHash := createNtHash password
  let ntlmv2Hash := createNtlmV2Hash username domain ntHash
  let targetInfo := createTargetInfo hostname domain
  let ntResponse := createNtlmV2Response ntlmv2Hash serverChallenge
    clientChallenge timestamp targetInfo
  let lmResponse := createLMv2Response ntlmv2Hash serverChallenge clientChallenge
  let ub := utf16le username
  let hb := utf16le hostname
  let db := utf16le domain
  let domainOffset := 0x40
  let usernameOffset := domainOffset + db.length
  let hostnameOffset := usernameOffset + ub.length
  let lmResponseOffset := hostnameOffset + hb.length
  let ntResponseOffset := lmResponseOffset + lmResponse.length
  asciiBytes "NTLMSSP" ++ [0] ++
    u32le 3 ++
    u16le lmResponse.length ++ u16le lmResponse.length ++ u32le lmResponseOffset ++
    u16le ntResponse.length ++ u16le ntResponse.length ++ u32le ntResponseOffset ++
    u16le db.length ++ u16le db.length ++ u32le domainOffset ++
    u16le ub.length ++ u16le ub.length ++ u32le usernameOffset ++
    u16le hb.length ++ u16le hb.length ++ u32le hostnameOffset ++
    u16le 0 ++ u16le 0 ++ u32le 0 ++
    u32le negotiateFlags ++
    db ++ ub ++ hb ++ lmResponse ++ ntResponse

/-- The workstation field of a Type 1 message, read back through its
length and offset descriptors at offsets 24 and 28. -/
def type1Workstation (buffer : List Nat) : List Nat :=
  (buffer.drop (readU32le buffer 28)).take (readU16le buffer 24)

/-- The workstation field of a Type 3 message, read back through its
length and offset descriptors at offsets 44 and 48. -/
def type3Workstation (buffer : List Nat) : List Nat :=
  (buffer.drop (readU32le buffer 48)).take (readU16le buffer 44)

/- ### SMB2 status codes (StatusCode enumeration) and commands. -/

/-- Status code for success, from the StatusCode enumeration. -/
def StatusCode.Success : Nat := 0x00000000

/-- Status code for a pending long-running operation. -/
def StatusCode.Pending : Nat := 0x00000103

/-- Status code expected after SessionSetup Type 2. -/
def StatusCode.MoreProcessingRequired : Nat := 0xc0000016

/-- Status code for a missing file name. -/
def StatusCode.FileNameNotFound : Nat := 0xc0000034

/-- Status code for a missing file path. -/
def StatusCode.FilePathNotFound : Nat := 0xc000003a

/-- Status code for an already-closed file. -/
def StatusCode.FileClosed : Nat := 0xc0000128

/-- Status code for a sharing violation. -/
def StatusCode.SharingViolation : Nat := 0xc0000043

/-- The access-denied status, written as the literal 0xc0000022 where
the tree-connect retry checks it. -/
def StatusCode.AccessDenied : Nat := 0xc0000022

/-- Modelled from the spec: the ChangeNotify command code of the SMB2
command catalog (the PacketType enumeration file is absent from the
snapshot), with the standard MS-SMB2 value. -/
def PacketType.ChangeNotify : Nat := 0x000f

/-- Modelled from the spec: the Echo command code. -/
def PacketType.Echo : Nat := 0x000d

/-- Modelled from the spec: the Negotiate command code. -/
def PacketType.Negotiate : Nat := 0x0000

/-- Modelled from the spec: the TreeConnect command code. -/
def PacketType.TreeConnect : Nat := 0x0003

/-- Modelled from the spec: dialect revision 2.0.2 (the Dialect
enumeration file is absent from the snapshot; values are listed in the
specification glossary). -/
def Dialect.Smb202 : Nat := 0x0202

/-- Modelled from the spec: dialect revision 2.1. -/
def Dialect.Smb210 : Nat := 0x0210

/-- Modelled from the spec: dialect revision 3.0. -/
def Dialect.Smb300 : Nat := 0x0300

/-- Modelled from the spec: dialect revision 3.0.2. -/
def Dialect.Smb302 : Nat := 0x0302

/-- The dialect list of the Negotiate request issued by
Session.authenticate. -/
def authenticateNegotiateDialects : List Nat :=
  [Dialect.Smb202, Dialect.Smb210]

/-- The Type 1 blob built by Session.authenticate: the first argument of
encodeNegotiationMessage is client.host, the host name of the server the
client connects to. -/
def authenticateType1Blob (clientHost domain : String) (force : NtlmForce)
    (envDefaultNtlmV1 : Bool) : List Nat :=
  encodeNegotiationMessage clientHost domain force envDefaultNtlmV1

/-- The Type 3 blob built by Session.authenticate when the v2 branch is
taken: encodeAuthenticationMessage receives client.host as the
workstation argument and negotiate flags 0. -/
def authenticateType3BlobV2 (username clientHost domain : String)
    (serverChallenge : List Nat) (password : String)
    (clientChallenge timestamp : List Nat) : List Nat :=
  encodeAuthenticationMessageV2 username clientHost domain serverChallenge
    password 0 clientChallenge timestamp

/- ### Requests, responses and session state. -/

/-- Request header fields used by the client core. -/
structure ReqHeader where
  messageId : Nat
  ptype : Nat
  sessionId : Option (List Nat)
  treeId : Option Nat
  deriving DecidableEq, Repr

/-- A request: header plus the command body as raw bytes. -/
structure Request where
  header : ReqHeader
  body : List Nat
  deriving DecidableEq, Repr

/-- Response header fields used by the client core. -/
structure RespHeader where
  status : Nat
  messageId : Nat
  ptype : Nat
  sessionId : Option (List Nat)
  treeId : Nat
  deriving DecidableEq, Repr

/-- Response body fields used by the client core. -/
structure RespBody where
  shareFlags : Option Nat
  buffer : List Nat
  deriving DecidableEq, Repr

/-- A response delivered to the correlation layer. -/
structure Response where
  header : RespHeader
  body : RespBody
  deriving DecidableEq, Repr

/-- Modelled from the spec: session state referenced by Client.send,
Client.decryptMessage, Client.encryptMessage and Tree.connect.  The
session id, the encryption, decryption and signing keys, and the
encryptionEnabled flag belong to the authenticated Session, whose key
derivation code is absent from the snapshot (only its callers remain);
the spec data model gives a session an optional 8-byte id, optional
16-byte keys and a boolean flag. -/
structure SessionState where
  sid : Option (List Nat)
  encryptionEnabled : Bool
  encryptionKey : Option (List Nat)
  decryptionKey : Option (List Nat)
  signingKey : Option (List Nat)
  deriving DecidableEq, Repr

/-- JS strict equality of two possibly-undefined ids: undefined equals
undefined, defined ids compare by value. -/
def jsEqOpt (a b : Option (List Nat)) : Bool :=
  match a, b with
  | none, none => true
  | some x, some y => x = y
  | _, _ => false

/-- Modelled from the spec: serialization of a request as the 64-byte
SMB2 header of section 4.5 followed by the body bytes (the Request and
structure-codec files are absent from the snapshot).  Credits requested
default to 8191. -/
def serializeRequest (r : Request) : List Nat :=
  [0xfe, 0x53, 0x4d, 0x42] ++ u16le 64 ++ u16le 0 ++ u32le 0 ++
    u16le r.header.ptype ++ u16le 8191 ++ u32le 0 ++ u32le 0 ++
    u64le r.header.messageId ++ u32le 0 ++ u32le (r.header.treeId.getD 0) ++
    (r.header.sessionId.getD (List.replicate 8 0)) ++ List.replicate 16 0 ++
    r.body

/-- Modelled from the spec: parsing of a response chunk through the
64-byte header layout of section 4.5; the body is kept as raw bytes. -/
def parseResponse (chunk : List Nat) : Response :=
  { header :=
      { status := readU32le chunk 8,
        messageId := readU32le chunk 24 + 2 ^ 32 * readU32le chunk 28,
        ptype := readU16le chunk 12,
        sessionId := some ((chunk.drop 40).take 8),
        treeId := readU32le chunk 36 },
    body := { shareFlags := none, buffer := chunk.drop 64 } }

/- ### Transform header (TransformHeaderUtil). -/

/-- The Transform protocol id 0xFD S M B. -/
def transformProtocolId : List Nat := [0xfd, 0x53, 0x4d, 0x42]

/-- Parsed Transform header fields. -/
structure TransformHeader where
  protocolId : List Nat
  signature : List Nat
  nonce : List Nat
  originalMessageSize : Nat
  reserved : Nat
  flags : Nat
  sessionId : List Nat
  deriving DecidableEq, Repr

/-- Embedding of TransformHeaderUtil.serialize: the 52-byte wire layout
of a Transform header. -/
def serializeTransformHeader (th : TransformHeader) : List Nat :=
  th.protocolId ++ th.signature ++ th.nonce ++
    u32le th.originalMessageSize ++ u16le th.reserved ++ u16le th.flags ++
    th.sessionId

/-- Embedding of TransformHeaderUtil.parse: validates the protocol id
and reads the fields back from their offsets. -/
def parseTransformHeader (buffer : List Nat) : Except Unit TransformHeader :=
  if buffer.take 4 ≠ transformProtocolId then .error () else
  .ok
    { protocolId := buffer.take 4,
      signature := (buffer.drop 4).take 16,
      nonce := (buffer.drop 20).take 16,
      originalMessageSize := readU32le buffer 36,
      reserved := readU16le buffer 40,
      flags := readU16le buffer 42,
      sessionId := (buffer.drop 44).take 8 }

/-- Embedding of TransformHeaderUtil.create with the random nonce lifted
to a parameter; the signature starts as sixteen zero bytes and the flags
field is the encrypted flag. -/
def createTransformHeader (sessionId : List Nat) (messageSize : Nat)
    (nonce16 : List Nat) : TransformHeader :=
  { protocolId := transformProtocolId,
    signature := List.replicate 16 0,
    nonce := nonce16,
    originalMessageSize := messageSize,
    reserved := 0,
    flags := 0x0001,
    sessionId := sessionId }

/-- Embedding of TransformHeaderUtil.getAAD: bytes 20 to 51 of the
serialized header. -/
def getAAD (headerBuffer : List Nat) : List Nat := (headerBuffer.drop 20).take 32

/-- Embedding of TransformHeaderUtil.getCCMNonce: the first 11 bytes of
the 16-byte nonce field. -/
def getCCMNonce (nonce : List Nat) : List Nat := nonce.take 11

/-- Modelled from the spec: Packet.isTransformHeader (the Packet file is
absent from the snapshot) is true exactly when the first four bytes of a
frame are the Transform protocol id. -/
def isTransformHeader (chunk : List Nat) : Bool :=
  chunk.take 4 = transformProtocolId

/- ### Client encryption and decryption paths (Client.encryptMessage,
Client.decryptMessage). -/

instance {ε α : Type} [DecidableEq ε] [DecidableEq α] : DecidableEq (Except ε α) := fun a b =>
  match a, b with
  | .ok x, .ok y =>
      if h : x = y then .isTrue (by rw [h]) else .isFalse (by intro hh; cases hh; exact h rfl)
  | .error x, .error y =>
      if h : x = y then .isTrue (by rw [h]) else .isFalse (by intro hh; cases hh; exact h rfl)
  | .ok _, .error _ => .isFalse (by intro hh; cases hh)
  | .error _, .ok _ => .isFalse (by intro hh; cases hh)

/-- Errors raised by Client.decryptMessage. -/
inductive DecryptError where
  | keysNotAvailable
  | invalidProtocolId
  | cipher (e : CryptoError)
  deriving DecidableEq, Repr

/-- The observable outcome of Client.decryptMessage: whether the
signature-mismatch warning was logged, and the decrypted message or the
error thrown. -/
structure DecryptOutcome where
  warnedSignatureMismatch : Bool
  result : Except DecryptError (List Nat)
  deriving DecidableEq, Repr

/-- Embedding of Client.decryptMessage.  A missing decryption or signing
key raises; the Transform header is parsed from the first 52 bytes; the
AES-CMAC signature over the header with a zeroed signature field plus
the encrypted message is compared with the signature field, and a
mismatch is only logged as a warning; then decryptAES128CCM is invoked.
The source passes five arguments (key, nonce, encrypted message, auth
tag, aad) to the four-parameter decryptAES128CCM, so the auth tag is
bound to the aad parameter and the aad value is dropped; the tag checked
by decryptAES128CCM is the last 16 bytes of the encrypted message. -/
def decryptMessage (s : SessionState) (buffer : List Nat) : DecryptOutcome :=
  match s.decryptionKey, s.signingKey with
  | some dk, some sk =>
    match parseTransformHeader (buffer.take 52) with
    | .error _ => { warnedSignatureMismatch := false, result := .error .invalidProtocolId }
    | .ok th =>
      let transformHeaderBuffer := buffer.take 52
      let encryptedMessage := buffer.drop 52
      let zeroedSignatureBuffer :=
        transformHeaderBuffer.take 4 ++ List.replicate 16 0 ++ transformHeaderBuffer.drop 20
      let dataToVerify := zeroedSignatureBuffer ++ encryptedMessage
      let expectedSignature := calculateSignature sk dataToVerify
      let nonce := getCCMNonce th.nonce
      let authTag := th.signature
      { warnedSignatureMismatch := expectedSignature ≠ th.signature,
        result := (decryptAES128CCM dk nonce encryptedMessage authTag).mapError .cipher }
  | _, _ => { warnedSignatureMismatch := false, result := .error .keysNotAvailable }

/-- Errors raised by Client.encryptMessage. -/
inductive EncryptError where
  | keysNotAvailable
  | cipher (e : CryptoError)
  | typeErrorUndefinedTag
  deriving DecidableEq, Repr

/-- Embedding of Client.encryptMessage.  A missing encryption or signing
key raises; otherwise the Transform header is built and encryptAES128CCM
runs.  The source then destructures the ciphertext and authTag
properties from the returned value, but encryptAES128CCM returns a
Buffer, which has neither property, so both bindings are undefined and
the subsequent authTag.copy raises a TypeError before any bytes are
produced. -/
def encryptMessage (s : SessionState) (message nonce16 : List Nat) :
    Except EncryptError (List Nat) :=
  match s.encryptionKey, s.signingKey with
  | some ek, some _ =>
    let th := createTransformHeader (s.sid.getD []) message.length nonce16
    let thBuf := serializeTransformHeader th
    let aad := getAAD thBuf
    let nonce := getCCMNonce th.nonce
    match encryptAES128CCM ek nonce message aad with
    | .error e => .error (.cipher e)
    | .ok _ => .error .typeErrorUndefinedTag
  | _, _ => .error .keysNotAvailable

/- ### Client.send wire decision. -/

/-- Errors that reject a send before a waiter is registered. -/
inductive SendError where
  | notConnected
  | encrypt (e : EncryptError)
  deriving DecidableEq, Repr

/-- What Client.send writes to the socket. -/
inductive WireWrite where
  | plain (bytes : List Nat)
  | encrypted (bytes : List Nat)
  deriving DecidableEq, Repr

/-- Embedding of the write phase of Client.send: the request is
serialized; if some registered session has the id of the request header
with encryption enabled and an encryption key present, the buffer goes
through encryptMessage (whose failure is rethrown), otherwise the
serialized buffer is written as is. -/
def clientSendWire (sessions : List SessionState) (connected : Bool)
    (req : Request) (nonce16 : List Nat) : Except SendError WireWrite :=
  if ¬connected then .error .notConnected else
  let buffer := serializeRequest req
  match sessions.find? fun s => jsEqOpt s.sid req.header.sessionId with
  | some s =>
    if s.encryptionEnabled ∧ s.encryptionKey.isSome then
      match encryptMessage s buffer nonce16 with
      | .ok eb => .ok (.encrypted eb)
      | .error e => .error (.encrypt e)
    else .ok (.plain buffer)
  | none => .ok (.plain buffer)

/- ### Response correlation, timeouts and dispatch (Client.send waiter
registration, Client.onResponse, Client.onData). -/

/-- How a send promise was settled. -/
inductive SettleResult where
  | timeoutErr
  | rejectedWith (r : Response)
  | resolvedWith (r : Response)
  deriving DecidableEq, Repr

/-- Observable events of the correlation layer: emitted notifications,
invocations of registered waiter callbacks, promise settlements, and
console log lines. -/
inductive ClientEvent where
  | changeNotifyEmitted (r : Response)
  | callbackInvoked (mid : Nat) (r : Response)
  | promiseSettled (mid : Nat) (s : SettleResult)
  | logWarnSignatureMismatch
  | logErrorDecryptionFailed
  | logErrorSessionOrKeysNotFound
  deriving DecidableEq, Repr

/-- Correlation state of the client: the buffered-response map, the set
of registered waiter callbacks, the promise cell of each request, and
the pending timers. -/
structure CorrState where
  responseMap : List (Nat × Response)
  callbackIds : List Nat
  waiters : List (Nat × Option SettleResult)
  timers : List Nat
  deriving DecidableEq, Repr

/-- Empty correlation state. -/
def CorrState.empty : CorrState :=
  { responseMap := [], callbackIds := [], waiters := [], timers := [] }

/-- Association-list lookup. -/
def lookupA {α : Type} (m : List (Nat × α)) (k : Nat) : Option α :=
  (m.find? fun p => p.1 = k).map fun p => p.2

/-- Association-list removal. -/
def removeA {α : Type} (m : List (Nat × α)) (k : Nat) : List (Nat × α) :=
  m.filter fun p => ¬p.1 = k

/-- Association-list update or insert. -/
def setA {α : Type} (m : List (Nat × α)) (k : Nat) (v : α) : List (Nat × α) :=
  if (lookupA m k).isSome then m.map fun p => if p.1 = k then (k, v) else p
  else m ++ [(k, v)]

/-- Classification used by the finishRequest closure of Client.send: a
status is an error unless it is Success, Pending,
MoreProcessingRequired or FileClosed. -/
def isErrorStatus (status : Nat) : Bool :=
  ¬(status = StatusCode.Success ∨ status = StatusCode.Pending ∨
    status = StatusCode.MoreProcessingRequired ∨ status = StatusCode.FileClosed)

/-- Settle the promise cell of a request if it is still unsettled; a JS
promise ignores later settlement attempts. -/
def settleWaiter (st : CorrState) (mid : Nat) (r : SettleResult) :
    CorrState × List ClientEvent :=
  match lookupA st.waiters mid with
  | some none =>
      ({ st with waiters := setA st.waiters mid (some r) }, [.promiseSettled mid r])
  | _ => (st, [])

/-- Embedding of the finishRequest closure of Client.send: reject the
promise with the response itself when its status is an error, resolve
with the response otherwise. -/
def finishRequest (st : CorrState) (mid : Nat) (resp : Response) :
    CorrState × List ClientEvent :=
  settleWaiter st mid
    (if isErrorStatus resp.header.status then .rejectedWith resp else .resolvedWith resp)

/-- Embedding of the waiter-registration phase of Client.send: a fresh
unsettled promise cell and a timer are created; a response already
buffered for the message id finishes the request at once and is removed,
otherwise the finishRequest callback is registered unless one exists. -/
def sendRegister (st : CorrState) (mid : Nat) : CorrState × List ClientEvent :=
  let st1 := { st with timers := st.timers ++ [mid], waiters := setA st.waiters mid none }
  match lookupA st1.responseMap mid with
  | some r =>
      let p := finishRequest st1 mid r
      ({ p.1 with responseMap := removeA p.1.responseMap mid }, p.2)
  | none =>
      if st1.callbackIds.contains mid then (st1, [])
      else ({ st1 with callbackIds := st1.callbackIds ++ [mid] }, [])

/-- Embedding of the request-timeout timer of Client.send firing: the
promise is rejected with the request_timeout error if it is still
pending; the registered callback entry is not removed. -/
def fireTimeout (st : CorrState) (mid : Nat) : CorrState × List ClientEvent :=
  if st.timers.contains mid then settleWaiter st mid .timeoutErr else (st, [])

/-- Embedding of Client.onResponse: a successful ChangeNotify response
is emitted as a notification event; then a registered callback for the
message id is invoked with the response and deregistered, and otherwise
the response is buffered. -/
def onResponse (st : CorrState) (resp : Response) : CorrState × List ClientEvent :=
  let ev0 :=
    if resp.header.ptype = PacketType.ChangeNotify ∧
        resp.header.status = StatusCode.Success then
      [ClientEvent.changeNotifyEmitted resp]
    else []
  let mid := resp.header.messageId
  if st.callbackIds.contains mid then
    let p := finishRequest st mid resp
    ({ p.1 with callbackIds := p.1.callbackIds.filter fun i => i ≠ mid },
      ev0 ++ [.callbackInvoked mid resp] ++ p.2)
  else
    ({ st with responseMap := setA st.responseMap mid resp }, ev0)

/-- Embedding of the per-frame body of Client.onData: a Transform frame
is decrypted through the session found by its session id, a failure of
decryption (or a missing session or key) is logged and the frame is
skipped, and a decrypted or plain frame is parsed and dispatched to
onResponse. -/
def processChunk (sessions : List SessionState) (st : CorrState)
    (chunk : List Nat) : CorrState × List ClientEvent :=
  if isTransformHeader chunk then
    match parseTransformHeader (chunk.take 52) with
    | .error _ => (st, [])
    | .ok th =>
      match sessions.find? fun s => jsEqOpt s.sid (some th.sessionId) with
      | some s =>
        if s.decryptionKey.isSome then
          let d := decryptMessage s chunk
          let warnEv :=
            if d.warnedSignatureMismatch then [ClientEvent.logWarnSignatureMismatch]
            else []
          match d.result with
          | .ok m =>
              let p := onResponse st (parseResponse m)
              (p.1, warnEv ++ p.2)
          | .error _ => (st, warnEv ++ [.logErrorDecryptionFailed])
        else (st, [.logErrorSessionOrKeysNotFound])
      | none => (st, [.logErrorSessionOrKeysNotFound])
  else
    onResponse st (parseResponse chunk)

/- ### Tree.connect with the access-denied encryption retry. -/

/-- The value a rejected send delivers to its caller: the response
object itself for an error-status response, or a plain Error without a
header (request timeout, encryption failure, socket trouble). -/
inductive RejectReason where
  | response (r : Response)
  | plainError
  deriving DecidableEq, Repr

/-- Whether a rejection value carries a header whose status is the
access-denied literal checked by Tree.connect. -/
def hasAccessDeniedHeader : RejectReason → Bool
  | .response r => r.header.status = 0xc0000022
  | .plainError => false

/-- Tree handle state. -/
structure FileS where
  isOpen : Bool
  deriving DecidableEq, Repr

/-- Directory handle state. -/
structure DirS where
  isOpen : Bool
  deriving DecidableEq, Repr

/-- Tree state: server-assigned id, connection flags, and the lists of
open file and directory handles. -/
structure TreeS where
  tid : Option Nat
  connected : Bool
  connecting : Bool
  openFiles : List FileS
  openDirectories : List DirS
  deriving DecidableEq, Repr

/-- Result of Tree.connect: the session (whose encryptionEnabled flag
the retry may set), the tree, the outcome propagated to the caller
(none when connect returned early because the tree was already
connected or connecting), and the number of TreeConnect requests
issued. -/
structure TreeConnectResult where
  session : SessionState
  tree : TreeS
  result : Option (Except RejectReason Response)
  attempts : Nat
  deriving DecidableEq, Repr

/-- The success tail of Tree.connect: record the tree id, enable session
encryption when the share flags mandate it and both keys are present,
and mark the tree connected. -/
def treeConnectSuccess (s : SessionState) (t : TreeS) (r : Response)
    (attempts : Nat) : TreeConnectResult :=
  let t1 := { t with tid := some r.header.treeId }
  let shareFlags := (r.body.shareFlags).getD 0
  let shareRequiresEncryption := Nat.land shareFlags 0x00000008 ≠ 0
  let s1 :=
    if shareRequiresEncryption ∧ s.encryptionKey.isSome ∧ s.decryptionKey.isSome ∧
        ¬s.encryptionEnabled then
      { s with encryptionEnabled := true }
    else s
  { session := s1,
    tree := { t1 with connecting := false, connected := true },
    result := some (.ok r),
    attempts := attempts }

/-- The retry guard of Tree.connect: the first TreeConnect was rejected
with a response whose status is access denied, both encryption and
decryption keys are present, and encryption is off. -/
def treeConnectRetryCond (s : SessionState) (e : RejectReason) : Bool :=
  hasAccessDeniedHeader e ∧ s.encryptionKey.isSome ∧ s.decryptionKey.isSome ∧
    ¬s.encryptionEnabled

/-- Embedding of Tree.connect with the outcomes of the first and (when
reached) second TreeConnect request supplied as parameters.  An
access-denied rejection while keys are present and encryption is off
enables encryption and retries exactly once; any other rejection is
rethrown with the session untouched. -/
def treeConnect (s : SessionState) (t : TreeS)
    (o1 o2 : Except RejectReason Response) : TreeConnectResult :=
  if t.connected ∨ t.connecting then
    { session := s, tree := t, result := none, attempts := 0 }
  else
    let t1 := { t with connecting := true }
    match o1 with
    | .ok r => treeConnectSuccess s t1 r 1
    | .error e =>
      if treeConnectRetryCond s e then
        let s1 := { s with encryptionEnabled := true }
        match o2 with
        | .ok r => treeConnectSuccess s1 t1 r 2
        | .error e2 =>
            { session := s1, tree := t1, result := some (.error e2), attempts := 2 }
      else
        { session := s, tree := t1, result := some (.error e), attempts := 1 }

/- ### Teardown lifecycle: Tree.disconnect, Session.logoff,
Client.close. -/

/-- Requests issued during teardown, in order. -/
inductive TeardownReq where
  | closeReq
  | treeDisconnectReq
  | logOffReq
  deriving DecidableEq, Repr

/-- Modelled from the spec: File.close and Directory.close (the handle
files are absent from the snapshot; only their callers and tests
remain).  Closing an open handle issues a Close request, marks the
handle closed and emits the close event; a closed handle refuses the
operation and is not closed twice. -/
def fileClose (f : FileS) : FileS × List TeardownReq :=
  if f.isOpen then ({ isOpen := false }, [.closeReq]) else (f, [])

/-- Modelled from the spec: Directory.close, as fileClose. -/
def dirClose (d : DirS) : DirS × List TeardownReq :=
  if d.isOpen then ({ isOpen := false }, [.closeReq]) else (d, [])

/-- Result of Tree.disconnect: the tree, the handles that were closed,
and the requests issued in order. -/
structure TreeDisconnectResult where
  tree : TreeS
  closedFiles : List FileS
  closedDirectories : List DirS
  reqs : List TeardownReq
  deriving DecidableEq, Repr

/-- Embedding of Tree.disconnect: a no-op on a disconnected tree;
otherwise every open file and directory is closed (and removed from the
open lists by the registered close handlers) before the TreeDisconnect
request is issued. -/
def treeDisconnect (t : TreeS) : TreeDisconnectResult :=
  if ¬t.connected then { tree := t, closedFiles := [], closedDirectories := [], reqs := [] }
  else
    { tree := { t with connected := false, openFiles := [], openDirectories := [] },
      closedFiles := t.openFiles.map fun f => (fileClose f).1,
      closedDirectories := t.openDirectories.map fun d => (dirClose d).1,
      reqs := (t.openFiles.map fun f => (fileClose f).2).flatten ++
        (t.openDirectories.map fun d => (dirClose d).2).flatten ++
        [.treeDisconnectReq] }

/-- Session lifecycle state: the authenticated flag and the connected
trees. -/
structure SessionLife where
  authenticated : Bool
  connectedTrees : List TreeS
  deriving DecidableEq, Repr

/-- Result of Session.logoff: the session, the per-tree disconnect
results, and the requests issued in order. -/
structure SessionLogoffResult where
  session : SessionLife
  disconnected : List TreeDisconnectResult
  reqs : List TeardownReq
  deriving DecidableEq, Repr

/-- Embedding of Session.logoff: a no-op on an unauthenticated session;
otherwise every connected tree is disconnected (and removed from the
list by the registered disconnect handlers) before the LogOff request is
issued. -/
def sessionLogoff (s : SessionLife) : SessionLogoffResult :=
  if ¬s.authenticated then { session := s, disconnected := [], reqs := [] }
  else
    let ds := s.connectedTrees.map treeDisconnect
    { session := { authenticated := false, connectedTrees := [] },
      disconnected := ds,
      reqs := (ds.map fun d => d.reqs).flatten ++ [.logOffReq] }

/-- Client lifecycle state: the connected flag and the registered
sessions. -/
structure ClientLife where
  connected : Bool
  sessions : List SessionLife
  deriving DecidableEq, Repr

/-- Result of Client.close: the client and the per-session logoff
results. -/
structure ClientCloseResult where
  client : ClientLife
  loggedOff : List SessionLogoffResult
  deriving DecidableEq, Repr

/-- Embedding of Client.close: a no-op on a disconnected client;
otherwise every session is logged off (and removed from the list by the
registered logoff handlers) before the socket is destroyed and the
client marked disconnected. -/
def clientClose (c : ClientLife) : ClientCloseResult :=
  if ¬c.connected then { client := c, loggedOff := [] }
  else
    { client := { connected := false, sessions := [] },
      loggedOff := c.sessions.map sessionLogoff }

/- ### Definitions written from the words of the specification, for
refinement comparison with the source embeddings above. -/

/-- NTOWFv2 as the specification words it: HMAC-MD5 keyed by the NT
hash over the UTF-16LE concatenation of the uppercased username and the
domain with its casing exactly as supplied. -/
def specNtowfV2 (username domain : String) (ntHash : List Nat) : List Nat :=
  hmacMd5 ntHash (utf16le (upperStr username ++ domain))

/-- The NTLMv2 temp blob as the specification words it: version bytes,
six zero bytes, timestamp, client challenge, four zero bytes, target
info, and four trailing zero bytes. -/
def specTempBlob (clientChallenge timestamp targetInfo : List Nat) : List Nat :=
  [0x01, 0x01] ++ List.replicate 6 0 ++ timestamp ++ clientChallenge ++
    List.replicate 4 0 ++ targetInfo ++ List.replicate 4 0

/- ### Concrete inputs used by witnesses and counterexamples. -/

/-- A session holding 16-byte decryption and signing keys, owning the
session id 0x11 repeated eight times. -/
def c1Session : SessionState :=
  { sid := some (List.replicate 8 0x11),
    encryptionEnabled := true,
    encryptionKey := some (List.replicate 16 1),
    decryptionKey := some (List.replicate 16 1),
    signingKey := some (List.replicate 16 2) }

/-- An inbound Transform frame for that session: protocol id, a
signature field of 0xaa bytes, a counting nonce, original size 16,
flags 0x0001, the session id, and 16 bytes of ciphertext whose trailing
16 bytes (the whole ciphertext) cannot match the CCM tag. -/
def c1Chunk : List Nat :=
  transformProtocolId ++ List.replicate 16 0xaa ++ List.range 16 ++
    u32le 16 ++ u16le 0 ++ u16le 1 ++ List.replicate 8 0x11 ++
    List.replicate 16 0x55

/-- The parsed Transform header of c1Chunk. -/
def c1Th : TransformHeader :=
  { protocolId := transformProtocolId,
    signature := List.replicate 16 0xaa,
    nonce := List.range 16,
    originalMessageSize := 16,
    reserved := 0,
    flags := 1,
    sessionId := List.replicate 8 0x11 }

/-- A correlation state with one pending waiter of message id 0. -/
def c1St0 : CorrState :=
  { responseMap := [], callbackIds := [0], waiters := [(0, none)], timers := [0] }

/-- A successful Echo response with message id 0, used to exercise the
late-response path. -/
def c7Resp : Response :=
  { header :=
      { status := 0, messageId := 0, ptype := PacketType.Echo,
        sessionId := none, treeId := 0 },
    body := { shareFlags := none, buffer := [] } }

/-- The correlation state after the C7 run registers message id 0 and
its timeout fires. -/
def c7StAfterTimeout : CorrState :=
  (fireTimeout (sendRegister CorrState.empty 0).1 0).1

/-- A response with an error-class status, used by the C8 witness. -/
def c8Resp : Response :=
  { header :=
      { status := 0xc0000001, messageId := 5, ptype := PacketType.Echo,
        sessionId := none, treeId := 0 },
    body := { shareFlags := none, buffer := [] } }

/-- A correlation state with an unsettled waiter of message id 5. -/
def c8St : CorrState :=
  { responseMap := [], callbackIds := [5], waiters := [(5, none)], timers := [5] }

/-- A session holding both keys with encryption off, for the C6
witness. -/
def c6Session : SessionState :=
  { sid := some (List.replicate 8 3),
    encryptionEnabled := false,
    encryptionKey := some (List.replicate 16 5),
    decryptionKey := some (List.replicate 16 6),
    signingKey := some (List.replicate 16 7) }

/-- A fresh tree, for the C6 witness. -/
def c6Tree : TreeS :=
  { tid := none, connected := false, connecting := false,
    openFiles := [], openDirectories := [] }

/-- An access-denied TreeConnect rejection, for the C6 witness. -/
def c6Denied : RejectReason :=
  .response
    { header :=
        { status := 0xc0000022, messageId := 1, ptype := PacketType.TreeConnect,
          sessionId := some (List.replicate 8 3), treeId := 0 },
      body := { shareFlags := none, buffer := [] } }

/-- A connected tree with one open file and one open directory, for the
C9 witness. -/
def c9Tree : TreeS :=
  { tid := some 7, connected := true, connecting := false,
    openFiles := [{ isOpen := true }], openDirectories := [{ isOpen := true }] }

/-- An authenticated session owning c9Tree, for the C9 witness. -/
def c9Session : SessionLife :=
  { authenticated := true, connectedTrees := [c9Tree] }

/-- A connected client owning c9Session, for the C9 witness. -/
def c9Client : ClientLife :=
  { connected := true, sessions := [c9Session] }

/-- A session registered with encryption enabled and all keys present,
for the C10 failing input. -/
def c10Session : SessionState :=
  { sid := some (List.replicate 8 3),
    encryptionEnabled := true,
    encryptionKey := some (List.replicate 16 5),
    decryptionKey := some (List.replicate 16 6),
    signingKey := some (List.replicate 16 7) }

/-- A request addressed to that session. -/
def c10Req : Request :=
  { header :=
      { messageId := 0, ptype := PacketType.TreeConnect,
        sessionId := some (List.replicate 8 3), treeId := some 0 },
    body := [1, 2, 3] }

/-- A Type 2 challenge carrying the server challenge 1 repeated eight
times and a four-byte target-info block at offset 40. -/
def c4Type2 : List Nat :=
  asciiBytes "NTLMSSP" ++ [0] ++ u32le 2 ++ u16le 4 ++ u16le 4 ++
    u32le 40 ++ u32le 0 ++ List.replicate 8 1 ++ List.replicate 8 0 ++
    [9, 9, 9, 9]

/- ### Sanity theorems: the crypto embeddings match published test
vectors. -/

/-- AES-128 matches the FIPS 197 appendix C example. -/
theorem sanity_aes_fips197 :
    aesEncryptBlock
      [0x00, 0x01, 0x02, 0x03, 0x04, 0x05, 0x06, 0x07,
       0x08, 0x09, 0x0a, 0x0b, 0x0c, 0x0d, 0x0e, 0x0f]
      [0x00, 0x11, 0x22, 0x33, 0x44, 0x55, 0x66, 0x77,
       0x88, 0x99, 0xaa, 0xbb, 0xcc, 0xdd, 0xee, 0xff] =
      [0x69, 0xc4, 0xe0, 0xd8, 0x6a, 0x7b, 0x04, 0x30,
       0xd8, 0xcd, 0xb7, 0x80, 0x70, 0xb4, 0xc5, 0x5a] := by decide

/-- AES-CMAC matches the RFC 4493 example 1 (empty message), the vector
of scenario S2 of the specification. -/
theorem sanity_cmac_rfc4493_empty :
    aesCmac
      [0x2b, 0x7e, 0x15, 0x16, 0x28, 0xae, 0xd2, 0xa6,
       0xab, 0xf7, 0x15, 0x88, 0x09, 0xcf, 0x4f, 0x3c] [] =
      [0xbb, 0x1d, 0x69, 0x29, 0xe9, 0x59, 0x37, 0x28,
       0x7f, 0xa3, 0x7d, 0x12, 0x9b, 0x75, 0x67, 0x46] := by decide

/-- AES-CMAC matches the RFC 4493 example 2 (one block). -/
theorem sanity_cmac_rfc4493_block :
    aesCmac
      [0x2b, 0x7e, 0x15, 0x16, 0x28, 0xae, 0xd2, 0xa6,
       0xab, 0xf7, 0x15, 0x88, 0x09, 0xcf, 0x4f, 0x3c]
      [0x6b, 0xc1, 0xbe, 0xe2, 0x2e, 0x40, 0x9f, 0x96,
       0xe9, 0x3d, 0x7e, 0x11, 0x73, 0x93, 0x17, 0x2a] =
      [0x07, 0x0a, 0x16, 0xb4, 0x6b, 0x4d, 0x41, 0x44,
       0xf7, 0x9b, 0xdd, 0x9d, 0xd0, 0x4a, 0x28, 0x7c] := by decide

/-- MD5 matches the RFC 1321 vector for abc. -/
theorem sanity_md5_abc :
    md5 (asciiBytes "abc") =
      [0x90, 0x01, 0x50, 0x98, 0x3c, 0xd2, 0x4f, 0xb0,
       0xd6, 0x96, 0x3f, 0x7d, 0x28, 0xe1, 0x7f, 0x72] := by decide

/-- MD4 matches the RFC 1320 vector for abc. -/
theorem sanity_md4_abc :
    md4 (asciiBytes "abc") =
      [0xa4, 0x48, 0x01, 0x7a, 0xaf, 0x21, 0xd8, 0x52,
       0x5f, 0xc1, 0x0a, 0xe8, 0x7a, 0xa6, 0x72, 0x9d] := by decide

/-- HMAC-MD5 matches the RFC 2202 test case 1. -/
theorem sanity_hmacmd5_rfc2202 :
    hmacMd5 (List.replicate 16 0x0b) (asciiBytes "Hi There") =
      [0x92, 0x94, 0x72, 0x7a, 0x36, 0x38, 0xbb, 0x1c,
       0x13, 0xf4, 0x8e, 0xf8, 0x15, 0x8b, 0xfc, 0x9d] := by decide

/- ### Claim theorems. -/

/-- Claim C5: the spec states that every Negotiate request issued by
Session.authenticate carries exactly the dialect list 0x0202, 0x0210,
0x0300, 0x0302.  The source issues only 0x0202 and 0x0210: the 3.0 and
3.0.2 dialects are never offered. -/
theorem C5_negotiate_dialect_list :
    authenticateNegotiateDialects = [0x0202, 0x0210] ∧
    authenticateNegotiateDialects ≠ [0x0202, 0x0210, 0x0300, 0x0302] := by decide

/-- Claim C3: the spec states that NTOWFv2 uppercases only the username
and uses the domain with its casing exactly as supplied.  The source
uppercases the domain as well: the hash is invariant to the domain
casing, feeds HMAC-MD5 the fully uppercased identity, and differs from
the formula of the claim on a domain with lower-case letters. -/
theorem C3_ntowfv2_uppercases_domain :
    createNtlmV2Hash "user" "ab" (List.replicate 16 7) =
      createNtlmV2Hash "user" "AB" (List.replicate 16 7) ∧
    ntlmV2HashIdentity "user" "ab" = utf16le "USERAB" ∧
    createNtlmV2Hash "user" "ab" (List.replicate 16 7) =
      hmacMd5 (List.replicate 16 7) (utf16le "USERAB") ∧
    createNtlmV2Hash "user" "ab" (List.replicate 16 7) ≠
      specNtowfV2 "user" "ab" (List.replicate 16 7) := by decide

/-- Claim C4: the spec states that the temp blob ends with the
target-info echoed from the Type 2 challenge followed by four trailing
zero bytes.  The source builds temp without the trailing four zero
bytes, four bytes shorter than the blob the claim describes, and
decodeChallengeMessage returns only the server challenge, discarding the
target-info block of the Type 2 message; the NT response does have the
stated HMAC-MD5 shape over the temp the source builds. -/
theorem C4_temp_blob_differs_from_spec :
    createNtlmV2Response (List.replicate 16 3) (List.replicate 8 1)
        (List.replicate 8 2) (List.replicate 8 4) [9, 9, 9, 9] =
      hmacMd5 (List.replicate 16 3)
        (List.replicate 8 1 ++ ntlmV2Temp (List.replicate 8 2) (List.replicate 8 4) [9, 9, 9, 9]) ++
        ntlmV2Temp (List.replicate 8 2) (List.replicate 8 4) [9, 9, 9, 9] ∧
    ntlmV2Temp (List.replicate 8 2) (List.replicate 8 4) [9, 9, 9, 9] ≠
      specTempBlob (List.replicate 8 2) (List.replicate 8 4) [9, 9, 9, 9] ∧
    (ntlmV2Temp (List.replicate 8 2) (List.replicate 8 4) [9, 9, 9, 9]).length + 4 =
      (specTempBlob (List.replicate 8 2) (List.replicate 8 4) [9, 9, 9, 9]).length ∧
    decodeChallengeMessage c4Type2 = .ok (List.replicate 8 1) := by decide

/-- Claim C2: the spec states that the workstation field of the Type 1
and Type 3 messages is the client machine, never the server.  The
session passes client.host, the host name of the server being connected
to, so both workstation fields carry the uppercased server host name
(the client machine name appears nowhere in the session code). -/
theorem C2_workstation_is_server_host :
    type1Workstation (authenticateType1Blob "fileserver01" "workdomain" .auto false) =
      asciiBytes "FILESERVER01" ∧
    type3Workstation
        (authenticateType3BlobV2 "user" "fileserver01" "workdomain"
          (List.replicate 8 1) "pw" (List.replicate 8 2) (List.replicate 8 0)) =
      utf16le "FILESERVER01" := by decide

/-- Claim C10: the claim states that when a registered session with the
request session id has encryption enabled and an encryption key,
Client.send wraps the frame in an encrypted Transform envelope.  On the
failing input the encryption branch raises a TypeError instead, because
encryptMessage destructures ciphertext and authTag properties from the
Buffer that encryptAES128CCM returns; when no such session is found
(also when the same session is merely absent from the registered list,
or has encryption disabled) the serialized request is written in
plaintext and no error is raised. -/
theorem C10_send_encryption_branch_raises :
    clientSendWire [c10Session] true c10Req (List.range 16) =
      .error (.encrypt .typeErrorUndefinedTag) ∧
    clientSendWire [] true c10Req (List.range 16) =
      .ok (.plain (serializeRequest c10Req)) ∧
    clientSendWire [{ c10Session with encryptionEnabled := false }] true c10Req
        (List.range 16) =
      .ok (.plain (serializeRequest c10Req)) := by decide

/-- Claim C6: a TreeConnect rejection with status ACCESS_DENIED while
the session holds both keys and encryption is off enables encryption and
retries exactly once, and the outcome of the retry is propagated as is;
any other rejection is rethrown after one attempt with the session, and
in particular its encryptionEnabled flag, unchanged. -/
theorem C6_treeconnect_access_denied_retry
    (s : SessionState) (t : TreeS) (e : RejectReason)
    (o2 : Except RejectReason Response)
    (hc : t.connected = false) (hg : t.connecting = false) :
    (treeConnectRetryCond s e = true →
      (treeConnect s t (.error e) o2).attempts = 2 ∧
      (treeConnect s t (.error e) o2).session.encryptionEnabled = true ∧
      (∀ e2, o2 = .error e2 →
        (treeConnect s t (.error e) o2).result = some (.error e2))) ∧
    (treeConnectRetryCond s e = false →
      treeConnect s t (.error e) o2 =
        { session := s, tree := { t with connecting := true },
          result := some (.error e), attempts := 1 }) := by
  constructor
  · intro hr
    unfold treeConnect
    cases o2 with
    | ok r =>
        simp [hc, hg, hr, treeConnectSuccess]
    | error e2 =>
        simp [hc, hg, hr]
  · intro hr
    unfold treeConnect
    simp [hc, hg, hr]

/-- Claim C6 witness: on a fresh tree, an access-denied rejection with
both keys present and encryption off yields exactly two attempts with
encryption enabled, and a failing retry propagates the second error. -/
theorem C6_treeconnect_access_denied_retry_witness :
    (treeConnect c6Session c6Tree (.error c6Denied) (.error .plainError)).attempts = 2 ∧
    (treeConnect c6Session c6Tree (.error c6Denied) (.error .plainError)).session.encryptionEnabled = true ∧
    (treeConnect c6Session c6Tree (.error c6Denied) (.error .plainError)).result =
      some (.error .plainError) := by
  have h := C6_treeconnect_access_denied_retry c6Session c6Tree c6Denied
    (.error .plainError) (by decide) (by decide)
  exact ⟨(h.1 (by decide)).1, (h.1 (by decide)).2.1, (h.1 (by decide)).2.2 .plainError rfl⟩

/-- Claim C8: a response delivered to a pending unsettled waiter rejects
the waiter with the response object itself exactly when the status is
outside the tolerated set Success, Pending, MoreProcessingRequired,
FileClosed, and resolves the waiter with the response otherwise. -/
theorem C8_reject_iff_error_class
    (st : CorrState) (mid : Nat) (resp : Response)
    (h : lookupA st.waiters mid = some none) :
    ((finishRequest st mid resp).2 =
        [.promiseSettled mid (.rejectedWith resp)] ↔
      ¬(resp.header.status = 0x00000000 ∨ resp.header.status = 0x00000103 ∨
        resp.header.status = 0xc0000016 ∨ resp.header.status = 0xc0000128)) ∧
    ((finishRequest st mid resp).2 =
        [.promiseSettled mid (.resolvedWith resp)] ↔
      (resp.header.status = 0x00000000 ∨ resp.header.status = 0x00000103 ∨
        resp.header.status = 0xc0000016 ∨ resp.header.status = 0xc0000128)) := by
  unfold finishRequest settleWaiter
  rw [h]
  by_cases hD : resp.header.status = 0x00000000 ∨ resp.header.status = 0x00000103 ∨
      resp.header.status = 0xc0000016 ∨ resp.header.status = 0xc0000128
  · simp [isErrorStatus, StatusCode.Success, StatusCode.Pending,
      StatusCode.MoreProcessingRequired, StatusCode.FileClosed, hD]
  · simp [isErrorStatus, StatusCode.Success, StatusCode.Pending,
      StatusCode.MoreProcessingRequired, StatusCode.FileClosed, hD]

/-- Claim C8 witness: a status outside the tolerated set rejects the
waiter with the response itself. -/
theorem C8_reject_iff_error_class_witness :
    (finishRequest c8St 5 c8Resp).2 = [.promiseSettled 5 (.rejectedWith c8Resp)] :=
  ((C8_reject_iff_error_class c8St 5 c8Resp (by decide)).1).mpr (by decide)

/-- Claim C7 counterexample: after a request is registered and its
timeout fires (rejecting the promise with the request_timeout error),
delivering the matching response still invokes the registered waiter
callback with the late response, because the timeout path does not
deregister the callback; the claim states that the waiter callback is
not called with the late response.  The already-settled promise is
unchanged. -/
theorem C7_counterexample :
    (fireTimeout (sendRegister CorrState.empty 0).1 0).2 =
      [.promiseSettled 0 .timeoutErr] ∧
    (onResponse c7StAfterTimeout c7Resp).2 = [.callbackInvoked 0 c7Resp] ∧
    lookupA (onResponse c7StAfterTimeout c7Resp).1.waiters 0 =
      some (some .timeoutErr) := by decide

/-- Claim C7 as amended: when the timeout has settled the promise with
the request_timeout rejection and the callback is still registered, a
late matching response does invoke the registered callback (which is
then deregistered), but the settlement attempt is ignored, so the
promise stays rejected with the timeout error alone and no second
settlement event occurs. -/
theorem C7_late_response_invokes_registered_callback
    (st : CorrState) (mid : Nat) (resp : Response)
    (hw : lookupA st.waiters mid = some (some .timeoutErr))
    (hc : st.callbackIds.contains mid = true)
    (hm : resp.header.messageId = mid) :
    lookupA (onResponse st resp).1.waiters mid = some (some .timeoutErr) ∧
    mid ∉ (onResponse st resp).1.callbackIds ∧
    ClientEvent.callbackInvoked mid resp ∈ (onResponse st resp).2 ∧
    ∀ s2, ClientEvent.promiseSettled mid s2 ∉ (onResponse st resp).2 := by
  simp only [onResponse, finishRequest, settleWaiter, hm, hc, hw]
  refine ⟨hw, ?_, ?_, ?_⟩
  · simp [List.mem_filter]
  · simp
  · intro s2
    by_cases hcn : resp.header.ptype = PacketType.ChangeNotify ∧
        resp.header.status = StatusCode.Success
    · simp [hcn]
    · simp [hcn]

/-- Claim C7 witness for the amended statement, at the concrete run of
the counterexample. -/
theorem C7_late_response_invokes_registered_callback_witness :
    ClientEvent.callbackInvoked 0 c7Resp ∈ (onResponse c7StAfterTimeout c7Resp).2 ∧
    lookupA (onResponse c7StAfterTimeout c7Resp).1.waiters 0 =
      some (some .timeoutErr) :=
  ⟨(C7_late_response_invokes_registered_callback c7StAfterTimeout 0 c7Resp
      (by decide) (by decide) (by decide)).2.2.1,
   (C7_late_response_invokes_registered_callback c7StAfterTimeout 0 c7Resp
      (by decide) (by decide) (by decide)).1⟩

/-- Closing a file handle always leaves it closed. -/
theorem fileClose_isOpen (f : FileS) : (fileClose f).1.isOpen = false := by
  unfold fileClose
  cases hf : f.isOpen <;> simp [hf]

/-- Closing a directory handle always leaves it closed. -/
theorem dirClose_isOpen (d : DirS) : (dirClose d).1.isOpen = false := by
  unfold dirClose
  cases hd : d.isOpen <;> simp [hd]

/-- Closing a file handle issues only Close requests. -/
theorem fileClose_reqs (f : FileS) : ∀ r ∈ (fileClose f).2, r = .closeReq := by
  unfold fileClose
  cases hf : f.isOpen <;> simp [hf]

/-- Closing a directory handle issues only Close requests. -/
theorem dirClose_reqs (d : DirS) : ∀ r ∈ (dirClose d).2, r = .closeReq := by
  unfold dirClose
  cases hd : d.isOpen <;> simp [hd]

/-- Tree.disconnect always leaves the tree disconnected. -/
theorem treeDisconnect_connected (t : TreeS) :
    (treeDisconnect t).tree.connected = false := by
  unfold treeDisconnect
  cases ht : t.connected <;> simp [ht]

/-- Every handle reported closed by Tree.disconnect is closed. -/
theorem treeDisconnect_closed (t : TreeS) :
    (∀ f ∈ (treeDisconnect t).closedFiles, f.isOpen = false) ∧
    (∀ d ∈ (treeDisconnect t).closedDirectories, d.isOpen = false) := by
  unfold treeDisconnect
  cases ht : t.connected <;> simp [ht, List.mem_map]
  constructor
  · intro f _
    exact fileClose_isOpen f
  · intro d _
    exact dirClose_isOpen d

/-- The requests issued by disconnecting a connected tree: the handle
Close requests, then TreeDisconnect. -/
theorem treeDisconnect_reqs (t : TreeS) (ht : t.connected = true) :
    (treeDisconnect t).reqs =
      ((t.openFiles.map fun f => (fileClose f).2).flatten ++
        (t.openDirectories.map fun d => (dirClose d).2).flatten) ++
        [TeardownReq.treeDisconnectReq] := by
  unfold treeDisconnect
  simp [ht]

/-- The requests issued by logging off an authenticated session: the
tree teardown requests, then LogOff. -/
theorem sessionLogoff_reqs (s : SessionLife) (hs : s.authenticated = true) :
    (sessionLogoff s).reqs =
      ((s.connectedTrees.map treeDisconnect).map fun d => d.reqs).flatten ++
        [TeardownReq.logOffReq] := by
  unfold sessionLogoff
  simp [hs]

/-- Session.logoff always leaves the session unauthenticated. -/
theorem sessionLogoff_auth (s : SessionLife) :
    (sessionLogoff s).session.authenticated = false := by
  unfold sessionLogoff
  cases hs : s.authenticated <;> simp [hs]

/-- Every tree reported by Session.logoff is disconnected with its
handles closed. -/
theorem sessionLogoff_trees (s : SessionLife) :
    ∀ dr ∈ (sessionLogoff s).disconnected,
      dr.tree.connected = false ∧
      (∀ f ∈ dr.closedFiles, f.isOpen = false) ∧
      (∀ d ∈ dr.closedDirectories, d.isOpen = false) := by
  unfold sessionLogoff
  cases hs : s.authenticated <;> simp [hs, List.mem_map]
  intro tr _
  exact ⟨treeDisconnect_connected tr, (treeDisconnect_closed tr).1,
    (treeDisconnect_closed tr).2⟩

/-- Claim C9: teardown is transitive and ordered.  Disconnecting a
connected tree closes every previously-open file and directory handle,
empties the open lists, and issues the TreeDisconnect request after the
Close requests; logging off an authenticated session disconnects every
tree and issues LogOff last; closing a connected client logs off every
session, transitively disconnecting the trees and closing their
handles. -/
theorem C9_teardown_transitive :
    (∀ t : TreeS, t.connected = true →
      (treeDisconnect t).tree.connected = false ∧
      (treeDisconnect t).tree.openFiles = [] ∧
      (treeDisconnect t).tree.openDirectories = [] ∧
      (∀ f ∈ (treeDisconnect t).closedFiles, f.isOpen = false) ∧
      (∀ d ∈ (treeDisconnect t).closedDirectories, d.isOpen = false) ∧
      (treeDisconnect t).closedFiles.length = t.openFiles.length ∧
      (treeDisconnect t).closedDirectories.length = t.openDirectories.length ∧
      (treeDisconnect t).reqs.getLast? = some .treeDisconnectReq ∧
      (∀ r ∈ (treeDisconnect t).reqs.dropLast, r = .closeReq)) ∧
    (∀ s : SessionLife, s.authenticated = true →
      (sessionLogoff s).session.authenticated = false ∧
      (sessionLogoff s).session.connectedTrees = [] ∧
      (sessionLogoff s).disconnected.length = s.connectedTrees.length ∧
      (∀ dr ∈ (sessionLogoff s).disconnected, dr.tree.connected = false) ∧
      (sessionLogoff s).reqs.getLast? = some .logOffReq) ∧
    (∀ c : ClientLife, c.connected = true →
      (clientClose c).client.connected = false ∧
      (clientClose c).client.sessions = [] ∧
      (clientClose c).loggedOff.length = c.sessions.length ∧
      (∀ lr ∈ (clientClose c).loggedOff,
        lr.session.authenticated = false ∧
        ∀ dr ∈ lr.disconnected,
          dr.tree.connected = false ∧
          (∀ f ∈ dr.closedFiles, f.isOpen = false) ∧
          (∀ d ∈ dr.closedDirectories, d.isOpen = false))) := by
  refine ⟨?_, ?_, ?_⟩
  · intro t ht
    refine ⟨treeDisconnect_connected t, ?_, ?_, (treeDisconnect_closed t).1,
      (treeDisconnect_closed t).2, ?_, ?_, ?_, ?_⟩
    · unfold treeDisconnect; simp [ht]
    · unfold treeDisconnect; simp [ht]
    · unfold treeDisconnect; simp [ht]
    · unfold treeDisconnect; simp [ht]
    · rw [treeDisconnect_reqs t ht, List.getLast?_concat]
    · rw [treeDisconnect_reqs t ht, List.dropLast_concat]
      intro r hr
      rcases List.mem_append.mp hr with hr1 | hr2
      · rcases List.mem_flatten.mp hr1 with ⟨l, hl, hrl⟩
        rcases List.mem_map.mp hl with ⟨f, -, rfl⟩
        exact fileClose_reqs f r hrl
      · rcases List.mem_flatten.mp hr2 with ⟨l, hl, hrl⟩
        rcases List.mem_map.mp hl with ⟨d, -, rfl⟩
        exact dirClose_reqs d r hrl
  · intro s hs
    refine ⟨sessionLogoff_auth s, ?_, ?_, ?_, ?_⟩
    · unfold sessionLogoff; simp [hs]
    · unfold sessionLogoff; simp [hs]
    · intro dr hdr
      exact (sessionLogoff_trees s dr hdr).1
    · rw [sessionLogoff_reqs s hs, List.getLast?_concat]
  · intro c hc
    refine ⟨?_, ?_, ?_, ?_⟩
    · unfold clientClose; simp [hc]
    · unfold clientClose; simp [hc]
    · unfold clientClose; simp [hc]
    · intro lr hlr
      have : ∃ s, lr = sessionLogoff s := by
        unfold clientClose at hlr
        simp [hc, List.mem_map] at hlr
        rcases hlr with ⟨s, -, rfl⟩
        exact ⟨s, rfl⟩
      rcases this with ⟨s, rfl⟩
      exact ⟨sessionLogoff_auth s, fun dr hdr =>
        ⟨(sessionLogoff_trees s dr hdr).1, (sessionLogoff_trees s dr hdr).2.1,
         (sessionLogoff_trees s dr hdr).2.2⟩⟩

/-- Claim C9 witness: the concrete client with one authenticated
session, one connected tree and one open file and directory tears down
transitively. -/
theorem C9_teardown_transitive_witness :
    (treeDisconnect c9Tree).tree.connected = false ∧
    (sessionLogoff c9Session).session.authenticated = false ∧
    (clientClose c9Client).client.sessions = [] ∧
    (treeDisconnect c9Tree).reqs.getLast? = some .treeDisconnectReq :=
  ⟨(C9_teardown_transitive.1 c9Tree (by decide)).1,
   (C9_teardown_transitive.2.1 c9Session (by decide)).1,
   (C9_teardown_transitive.2.2 c9Client (by decide)).2.1,
   (C9_teardown_transitive.1 c9Tree (by decide)).2.2.2.2.2.2.2.1⟩

/-- Claim C1 counterexample: an inbound Transform frame whose CCM tag
verification fails against the owning session (the signature pre-check
also mismatches and is only warned about) is skipped by the data
handler: the correlation state, including the pending waiter of message
id 0, is untouched and the only observable effects are the two console
log lines; no error reaches any caller.  The claim states that a
decryption error is surfaced to the caller rather than only logged. -/
theorem C1_counterexample :
    (decryptMessage c1Session c1Chunk).result =
      .error (.cipher .unableToAuthenticate) ∧
    processChunk [c1Session] c1St0 c1Chunk =
      (c1St0, [.logWarnSignatureMismatch, .logErrorDecryptionFailed]) := by decide

/-- Claim C1 as amended: when an inbound Transform frame reaches its
owning session and decryption fails (a failed CCM tag verification
included), the frame is discarded with the failure only logged: the
correlation state is returned unchanged, no waiter is invoked or
settled, and no error is surfaced. -/
theorem C1_decrypt_failure_only_logged
    (sessions : List SessionState) (st : CorrState) (chunk : List Nat)
    (s : SessionState) (th : TransformHeader) (e : DecryptError)
    (hT : isTransformHeader chunk = true)
    (hP : parseTransformHeader (chunk.take 52) = .ok th)
    (hF : (sessions.find? fun s2 => jsEqOpt s2.sid (some th.sessionId)) = some s)
    (hK : s.decryptionKey.isSome = true)
    (hE : (decryptMessage s chunk).result = .error e) :
    processChunk sessions st chunk =
      (st, (if (decryptMessage s chunk).warnedSignatureMismatch then
              [ClientEvent.logWarnSignatureMismatch] else []) ++
        [ClientEvent.logErrorDecryptionFailed]) := by
  simp only [processChunk, hT, hP, hF, hK, hE, if_true]

/-- Claim C1 amended-statement witness at the concrete frame of the
counterexample. -/
theorem C1_decrypt_failure_only_logged_witness :
    processChunk [c1Session] c1St0 c1Chunk =
      (c1St0, (if (decryptMessage c1Session c1Chunk).warnedSignatureMismatch then
          [ClientEvent.logWarnSignatureMismatch] else []) ++
        [ClientEvent.logErrorDecryptionFailed]) :=
  C1_decrypt_failure_only_logged [c1Session] c1St0 c1Chunk c1Session c1Th
    (.cipher .unableToAuthenticate) (by decide) (by decide) (by decide)
    (by decide) (by decide)

end Smb
